import Mathlib

/-!
Shallow embedding of the validation and booking-consistency logic of the
`alx_travel_app` listings application (models.py, serializers.py, and the
`seed` management command), together with theorems settling the frozen
claims about its specification.

Conventions of the embedding:
* Calendar dates are integers (Python `datetime.date.toordinal` values);
  `d2 - d1` is then exactly `(d2 - d1).days`.
* Monetary amounts (`DecimalField`) are rationals.
* Users and listings are identified by numeric ids; Django compares model
  instances by primary key, so `user == listing.host` is id equality.
* Django/DRF control flow is made explicit: DRF runs field-level
  validators (`validate_<field>`) during `to_internal_value`, before the
  object-level `validate`; Django's `Model.full_clean` runs
  `clean_fields`, then `clean`, then `validate_unique`, then
  `validate_constraints`.  Errors are reported via `Except`/`Option`
  with constructors named after the spec's error taxonomy.
-/

namespace AlxTravel

abbrev UserId := Nat
abbrev ListingId := Nat

/-- Error taxonomy of the spec (section 7), plus `FieldError` for Django
field-validator failures that the spec does not name individually. -/
inductive ValidationError where
  | DateRangeError
  | PastDateError
  | CapacityError
  | UnavailableError
  | OverlapError
  | NotEligibleError
  | DuplicateReviewError
  | RangeError
  | NotFoundError
  | FieldError
deriving DecidableEq, Repr

/-- `Booking.STATUS_CHOICES` from models.py. -/
inductive BookingStatus where
  | pending
  | confirmed
  | cancelled
  | completed
deriving DecidableEq, Repr

/-- The fields of `Listing` (models.py) that the validation logic reads. -/
structure Listing where
  listing_id : ListingId
  price_per_night : Rat
  max_guests : Nat
  is_available : Bool
  host : UserId
deriving DecidableEq, Repr

/-- The fields of `Booking` (models.py) that the validation logic reads. -/
structure Booking where
  listing : ListingId
  user : UserId
  check_in_date : Int
  check_out_date : Int
  num_guests : Nat
  total_price : Rat
  status : BookingStatus
deriving DecidableEq, Repr

/-- The fields of `Review` (models.py) that the validation logic reads.
`booking` is the optional one-to-one link to the originating booking. -/
structure Review where
  listing : ListingId
  user : UserId
  rating : Nat
  booking : Option Booking
deriving DecidableEq, Repr

/-- `Booking.duration_days` property (models.py): `(check_out_date -
check_in_date).days`; both dates are always present in a row. -/
def Booking.duration_days (b : Booking) : Int :=
  b.check_out_date - b.check_in_date

/-- The persisted database state the validators query. -/
structure DBState where
  listings : List Listing
  bookings : List Booking
  reviews : List Review
deriving Repr

/-- `Listing.objects.get(listing_id=...)` over the embedded table. -/
def findListing (listings : List Listing) (lid : ListingId) : Option Listing :=
  listings.find? (fun l => l.listing_id == lid)

/-- The filter of `BookingSerializer.validate` (serializers.py lines
127-132): existing bookings on the listing with status pending or
confirmed, `check_in_date__lt=check_out`, `check_out_date__gt=check_in`. -/
def overlapsCandidate (lid : ListingId) (check_in check_out : Int)
    (b : Booking) : Bool :=
  b.listing == lid &&
  (b.status == BookingStatus.pending || b.status == BookingStatus.confirmed) &&
  decide (b.check_in_date < check_out) &&
  decide (b.check_out_date > check_in)

/-- The write-only inputs of `BookingSerializer` / `BookingCreateSerializer`. -/
structure BookingCandidate where
  listing_id : ListingId
  check_in_date : Int
  check_out_date : Int
  num_guests : Nat
  total_price : Option Rat
deriving DecidableEq, Repr

namespace BookingSerializer

/-- `BookingSerializer.validate` (serializers.py lines 91-142).  `today`
is `timezone.now().date()`.  The guard `if listing_id and num_guests:` of
the source keeps the Python truthiness test on `num_guests` (`0` is
falsy); dates, once deserialized, are always truthy. -/
def validate (today : Int) (listings : List Listing)
    (bookings : List Booking) (c : BookingCandidate) :
    Except ValidationError BookingCandidate :=
  if c.check_out_date ≤ c.check_in_date then
    Except.error ValidationError.DateRangeError
  else if c.check_in_date < today then
    Except.error ValidationError.PastDateError
  else if c.num_guests ≠ 0 then
    match findListing listings c.listing_id with
    | none => Except.error ValidationError.NotFoundError
    | some listing =>
      if c.num_guests > listing.max_guests then
        Except.error ValidationError.CapacityError
      else if !listing.is_available then
        Except.error ValidationError.UnavailableError
      else if bookings.any
          (overlapsCandidate c.listing_id c.check_in_date c.check_out_date) then
        Except.error ValidationError.OverlapError
      else
        Except.ok c
  else
    Except.ok c

/-- `BookingSerializer.create` (serializers.py lines 144-162): assigns the
request user, resolves the listing, and computes `total_price =
price_per_night * (check_out - check_in).days` only when `total_price`
was not supplied. -/
def create (request_user : UserId) (listing : Listing)
    (c : BookingCandidate) : Booking :=
  let duration : Int := c.check_out_date - c.check_in_date
  let price : Rat :=
    match c.total_price with
    | some p => p
    | none => listing.price_per_night * (duration : Rat)
  { listing := listing.listing_id
    user := request_user
    check_in_date := c.check_in_date
    check_out_date := c.check_out_date
    num_guests := c.num_guests
    total_price := price
    status := BookingStatus.pending }

end BookingSerializer

/-- `BookingCreateSerializer.create` (serializers.py lines 175-188): its
field list has no `total_price`, so the price is always computed. -/
def BookingCreateSerializer.create (request_user : UserId) (listing : Listing)
    (c : BookingCandidate) : Booking :=
  let duration : Int := c.check_out_date - c.check_in_date
  { listing := listing.listing_id
    user := request_user
    check_in_date := c.check_in_date
    check_out_date := c.check_out_date
    num_guests := c.num_guests
    total_price := listing.price_per_night * (duration : Rat)
    status := BookingStatus.pending }

/-- The filter `Booking.objects.filter(user=..., listing=...,
status='completed')` used by `Review.clean` and
`ReviewSerializer.validate`. -/
def isCompletedBookingBy (user : UserId) (lid : ListingId) (b : Booking) : Bool :=
  b.user == user && b.listing == lid && b.status == BookingStatus.completed

/-- The filter `Review.objects.filter(user=..., listing=...)` used by
`ReviewSerializer.validate`, the unique constraint check, and the
seeder's duplicate skips. -/
def isReviewBy (user : UserId) (lid : ListingId) (r : Review) : Bool :=
  r.user == user && r.listing == lid

/-- `Booking.clean` (models.py lines 170-185): date ordering, past-date
and capacity checks.  `today` is `timezone.now().date()` at the moment
`clean` runs.  The guard `if self.num_guests and self.listing_id:` keeps
Python truthiness (`0` is falsy); `self.listing` dereferences the
listing row among `listings`. -/
def Booking.clean (today : Int) (listings : List Listing) (b : Booking) :
    Option ValidationError :=
  if b.check_out_date ≤ b.check_in_date then some ValidationError.DateRangeError
  else if b.check_in_date < today then some ValidationError.PastDateError
  else if b.num_guests ≠ 0 then
    match findListing listings b.listing with
    | some l =>
      if b.num_guests > l.max_guests then some ValidationError.CapacityError
      else none
    | none => none
  else none

/-- Field validators of `Booking` run by `full_clean`'s `clean_fields`
step: `MinValueValidator(1)` on `num_guests` and `MinValueValidator(0.01)`
on `total_price`. -/
def Booking.clean_fields (b : Booking) : Option ValidationError :=
  if b.num_guests < 1 then some ValidationError.FieldError
  else if b.total_price < (1 : Rat) / 100 then some ValidationError.FieldError
  else none

/-- The `CheckConstraint` `check_out_date > check_in_date` of
`Booking.Meta.constraints`, validated by `full_clean`. -/
def Booking.validate_constraints (b : Booking) : Option ValidationError :=
  if b.check_out_date ≤ b.check_in_date then some ValidationError.FieldError
  else none

/-- `Model.full_clean` for `Booking`: `clean_fields`, the model `clean`,
then constraint validation; `Booking` has no uniqueness checks. -/
def Booking.full_clean (today : Int) (listings : List Listing) (b : Booking) :
    Option ValidationError :=
  match Booking.clean_fields b with
  | some e => some e
  | none =>
    match Booking.clean today listings b with
    | some e => some e
    | none => Booking.validate_constraints b

/-- `Booking.save` (models.py lines 187-189): unconditionally runs
`full_clean`, then writes the row.  Every creation path -
`serializer.save()`, `Booking.objects.create(...)` in the seeder -
goes through this method. -/
def Booking.save (today : Int) (s : DBState) (b : Booking) :
    Except ValidationError DBState :=
  match Booking.full_clean today s.listings b with
  | some e => Except.error e
  | none => Except.ok { s with bookings := b :: s.bookings }

/-- Field validators of `Review` run by `clean_fields`:
`MinValueValidator(1)` and `MaxValueValidator(5)` on `rating`. -/
def Review.clean_fields (r : Review) : Option ValidationError :=
  if r.rating < 1 then some ValidationError.FieldError
  else if r.rating > 5 then some ValidationError.FieldError
  else none

/-- `Review.clean` (models.py lines 254-268): the reviewer must have a
completed booking for the listing. -/
def Review.clean (bookings : List Booking) (r : Review) :
    Option ValidationError :=
  if bookings.any (isCompletedBookingBy r.user r.listing) then none
  else some ValidationError.NotEligibleError

/-- `Model.validate_unique` for `Review`: the
`UniqueConstraint(fields=['listing', 'user'])` of
`Review.Meta.constraints`. -/
def Review.validate_unique (reviews : List Review) (r : Review) :
    Option ValidationError :=
  if reviews.any (isReviewBy r.user r.listing) then
    some ValidationError.DuplicateReviewError
  else none

/-- `Model.full_clean` for `Review`: `clean_fields`, the model `clean`,
then the uniqueness check. -/
def Review.full_clean (s : DBState) (r : Review) : Option ValidationError :=
  match Review.clean_fields r with
  | some e => some e
  | none =>
    match Review.clean s.bookings r with
    | some e => some e
    | none => Review.validate_unique s.reviews r

/-- `Review.save` (models.py lines 270-272): unconditionally runs
`full_clean`, then writes the row.  Every creation path -
`ReviewSerializer`, `ReviewCreateSerializer`, the seeder's
`Review.objects.create(...)` - goes through this method. -/
def Review.save (s : DBState) (r : Review) : Except ValidationError DBState :=
  match Review.full_clean s r with
  | some e => Except.error e
  | none => Except.ok { s with reviews := r :: s.reviews }

/-- The persisted states reachable through the model layer: starting
empty, adding listings, and creating or modifying rows through the
models' `save` (hence `full_clean`) path.  `today` may differ between
steps, since saves happen on different days. -/
inductive Reachable : DBState → Prop where
  | init : Reachable { listings := [], bookings := [], reviews := [] }
  | addListing (s : DBState) (l : Listing) : Reachable s →
      Reachable { s with listings := l :: s.listings }
  | saveBooking (today : Int) (s s2 : DBState) (b : Booking) : Reachable s →
      Booking.save today s b = Except.ok s2 → Reachable s2
  | updateBooking (today : Int) (s : DBState) (b b2 : Booking)
      (pre post : List Booking) : Reachable s →
      s.bookings = pre ++ b :: post →
      Booking.full_clean today s.listings b2 = none →
      Reachable { s with bookings := pre ++ b2 :: post }
  | saveReview (s s2 : DBState) (r : Review) : Reachable s →
      Review.save s r = Except.ok s2 → Reachable s2

/-- No two rows of the review table share a (user, listing) pair. -/
def distinctPairs (reviews : List Review) : Prop :=
  List.Pairwise (fun r1 r2 => ¬(r1.user = r2.user ∧ r1.listing = r2.listing))
    reviews

/-- The seeder's completed-booking-plus-no-duplicate rule over a state. -/
def ReviewsRespectRule (s : DBState) : Prop :=
  (∀ r ∈ s.reviews, ∃ b ∈ s.bookings, b.user = r.user ∧ b.listing = r.listing ∧
    b.status = BookingStatus.completed) ∧
  distinctPairs s.reviews

/-- Phase 1 loop body of `Command.create_reviews` (seed.py lines
390-424): for a completed booking, skip when the booking's user already
reviewed the listing, otherwise attempt `Review.objects.create(...)`
(the model save path) and swallow any exception. -/
def seedReviewFromBooking (s : DBState) (b : Booking) (rating : Nat) :
    DBState :=
  if s.reviews.any (isReviewBy b.user b.listing) then s
  else
    match Review.save s
        { listing := b.listing, user := b.user, rating := rating,
          booking := some b } with
    | Except.ok s2 => s2
    | Except.error _ => s

/-- Phase 2 loop body of `Command.create_reviews` (seed.py lines
431-457): reviews not linked to a booking; skip when the drawn user is
the listing's host or already reviewed it, otherwise attempt
`Review.objects.create(...)` and swallow any exception. -/
def seedReviewDirect (s : DBState) (l : Listing) (user : UserId)
    (rating : Nat) : DBState :=
  if user == l.host || s.reviews.any (isReviewBy user l.listing_id) then s
  else
    match Review.save s
        { listing := l.listing_id, user := user, rating := rating,
          booking := none } with
    | Except.ok s2 => s2
    | Except.error _ => s

/-- The inputs of the review serializers relevant to validation. -/
structure ReviewCandidate where
  listing_id : ListingId
  rating : Nat
deriving DecidableEq, Repr

namespace ReviewSerializer

/-- `ReviewSerializer.validate_rating` (serializers.py lines 205-209). -/
def validate_rating (value : Nat) : Except ValidationError Nat :=
  if value < 1 ∨ value > 5 then Except.error ValidationError.RangeError
  else Except.ok value

/-- `ReviewSerializer.validate` (serializers.py lines 211-242): the
acting user must have a completed booking on the listing, and must not
already have a review for it. -/
def validate (user : UserId) (bookings : List Booking)
    (reviews : List Review) (c : ReviewCandidate) :
    Except ValidationError ReviewCandidate :=
  if !(bookings.any (isCompletedBookingBy user c.listing_id)) then
    Except.error ValidationError.NotEligibleError
  else if reviews.any (isReviewBy user c.listing_id) then
    Except.error ValidationError.DuplicateReviewError
  else Except.ok c

/-- DRF `Serializer.run_validation`: field-level validators
(`validate_rating`) run during `to_internal_value`, before the
object-level `validate` is called. -/
def run_validation (user : UserId) (bookings : List Booking)
    (reviews : List Review) (c : ReviewCandidate) :
    Except ValidationError ReviewCandidate :=
  match validate_rating c.rating with
  | Except.error e => Except.error e
  | Except.ok _ => validate user bookings reviews c

end ReviewSerializer

/-- `Listing.get_average_rating` (models.py lines 84-89): mean of the
listing's review ratings, `0` when it has none.  The integer ratings
make the Python float quotient exact as a rational for the magnitudes
involved. -/
def Listing.get_average_rating (reviews : List Review) : Rat :=
  if reviews.isEmpty then 0
  else (reviews.map (fun r => (r.rating : Rat))).sum / (reviews.length : Rat)

/-- `Listing.get_total_reviews` (models.py lines 91-93). -/
def Listing.get_total_reviews (reviews : List Review) : Nat :=
  reviews.length

/-- Floor of a rational, computed as floor division of numerator by
denominator. -/
def ratFloor (q : Rat) : Int :=
  Int.fdiv q.num (q.den : Int)

/-- Python `round` ties-to-even applied at integer precision. -/
def roundHalfEven (q : Rat) : Int :=
  let f := ratFloor q
  if q - (f : Rat) < 1 / 2 then f
  else if q - (f : Rat) > 1 / 2 then f + 1
  else if f % 2 = 0 then f else f + 1

/-- Python `round(x, 1)`: round half to even at one decimal place. -/
def pythonRound1 (q : Rat) : Rat :=
  (roundHalfEven (q * 10) : Rat) / 10

/-- `ListingSerializer.get_average_rating` (serializers.py lines 33-35):
`round(obj.get_average_rating(), 1)`. -/
def ListingSerializer.get_average_rating (reviews : List Review) : Rat :=
  pythonRound1 (Listing.get_average_rating reviews)

/-- `ListingSerializer.get_total_reviews` (serializers.py lines 37-39). -/
def ListingSerializer.get_total_reviews (reviews : List Review) : Nat :=
  Listing.get_total_reviews reviews

/-- The seeder's user re-draw (seed.py lines 290-294 and 337-340):
`user = random.choice(users)` repeated `while user == listing.host`.
The random stream is modelled by the list of successive draws; the loop
yields the first draw that is not the host and runs forever (`none`)
only when every draw is the host. -/
def redrawUser (host : UserId) : List UserId → Option UserId
  | [] => none
  | u :: rest => if u == host then redrawUser host rest else some u

/-- A booking built by either seeder loop (seed.py lines 288-318 and
335-354): its user is the result of the re-draw loop against the
listing's host. -/
def seedBooking (l : Listing) (draws : List UserId) (start_date : Int)
    (duration : Nat) (guests : Nat) (st : BookingStatus) : Option Booking :=
  match redrawUser l.host draws with
  | none => none
  | some u =>
    some { listing := l.listing_id, user := u, check_in_date := start_date,
           check_out_date := start_date + (duration : Int),
           num_guests := guests,
           total_price := l.price_per_night * (duration : Rat), status := st }

/-- Concrete listing for the spec's scenarios: priced 100 per night,
capacity 4, available, hosted by user 0. -/
def listing100 : Listing :=
  { listing_id := 1, price_per_night := 100, max_guests := 4,
    is_available := true, host := 0 }

/-- Dates in the concrete scenarios are numbered with Jan 1 = 1,
Jan 2 = 2, and so on. Booking A of the overlap scenario: confirmed,
Jan 1 - Jan 5, by user 2. -/
def bookingJan1Jan5 : Booking :=
  { listing := 1, user := 2, check_in_date := 1, check_out_date := 5,
    num_guests := 2, total_price := 400, status := BookingStatus.confirmed }

/-- Candidate booking B of the overlap scenario: Jan 3 - Jan 6, same
listing. -/
def candJan3Jan6 : BookingCandidate :=
  { listing_id := 1, check_in_date := 3, check_out_date := 6,
    num_guests := 2, total_price := none }

/-- Candidate booking of the pricing scenario: Jan 1 - Jan 4, no
explicit total price. -/
def candJan1Jan4 : BookingCandidate :=
  { listing_id := 1, check_in_date := 1, check_out_date := 4,
    num_guests := 2, total_price := none }

/-- The completed variant of booking A, used to build reachable states. -/
def bookingCompleted : Booking :=
  { bookingJan1Jan5 with status := BookingStatus.completed }

/-- State holding just the scenario listing. -/
def seedState1 : DBState :=
  { listings := [listing100], bookings := [], reviews := [] }

/-- State after persisting the completed booking. -/
def seedState2 : DBState :=
  { listings := [listing100], bookings := [bookingCompleted], reviews := [] }

/-- A review by the booking's user on the scenario listing. -/
def reviewByUser2 : Review :=
  { listing := 1, user := 2, rating := 5, booking := none }

/-- State after persisting that review. -/
def seedState3 : DBState :=
  { listings := [listing100], bookings := [bookingCompleted],
    reviews := [reviewByUser2] }

theorem overlapsCandidate_iff (lid : ListingId) (ci co : Int) (b : Booking) :
    overlapsCandidate lid ci co b = true ↔
      (b.listing = lid ∧
       (b.status = BookingStatus.pending ∨ b.status = BookingStatus.confirmed) ∧
       b.check_in_date < co ∧ ci < b.check_out_date) := by
  simp [overlapsCandidate, and_assoc]

theorem any_overlapsCandidate_iff (bookings : List Booking) (lid : ListingId)
    (ci co : Int) :
    bookings.any (overlapsCandidate lid ci co) = true ↔
      ∃ b ∈ bookings, b.listing = lid ∧
        (b.status = BookingStatus.pending ∨ b.status = BookingStatus.confirmed) ∧
        b.check_in_date < co ∧ ci < b.check_out_date := by
  simp only [List.any_eq_true, overlapsCandidate_iff]

/-- C1: `BookingSerializer.validate` performs its checks in the order
date-range, past-date, capacity, availability, overlap, failing with the
corresponding error at the first violated check, and succeeds exactly
when all five conditions hold.  Hypotheses: the listing reference
resolves (`hfind`), and `num_guests` is nonzero, which DRF's field-level
validation (`MinValueValidator(1)` on the model field) guarantees before
`validate` runs. -/
theorem booking_validate_order_and_completeness
    (today : Int) (listings : List Listing) (bookings : List Booking)
    (c : BookingCandidate) (l : Listing)
    (hfind : findListing listings c.listing_id = some l)
    (hng : c.num_guests ≠ 0) :
    (c.check_out_date ≤ c.check_in_date →
      BookingSerializer.validate today listings bookings c =
        Except.error ValidationError.DateRangeError) ∧
    (c.check_in_date < c.check_out_date → c.check_in_date < today →
      BookingSerializer.validate today listings bookings c =
        Except.error ValidationError.PastDateError) ∧
    (c.check_in_date < c.check_out_date → today ≤ c.check_in_date →
      l.max_guests < c.num_guests →
      BookingSerializer.validate today listings bookings c =
        Except.error ValidationError.CapacityError) ∧
    (c.check_in_date < c.check_out_date → today ≤ c.check_in_date →
      c.num_guests ≤ l.max_guests → l.is_available = false →
      BookingSerializer.validate today listings bookings c =
        Except.error ValidationError.UnavailableError) ∧
    (c.check_in_date < c.check_out_date → today ≤ c.check_in_date →
      c.num_guests ≤ l.max_guests → l.is_available = true →
      (∃ b ∈ bookings, b.listing = c.listing_id ∧
        (b.status = BookingStatus.pending ∨ b.status = BookingStatus.confirmed) ∧
        b.check_in_date < c.check_out_date ∧ c.check_in_date < b.check_out_date) →
      BookingSerializer.validate today listings bookings c =
        Except.error ValidationError.OverlapError) ∧
    (BookingSerializer.validate today listings bookings c = Except.ok c ↔
      (c.check_in_date < c.check_out_date ∧ today ≤ c.check_in_date ∧
       c.num_guests ≤ l.max_guests ∧ l.is_available = true ∧
       ¬ ∃ b ∈ bookings, b.listing = c.listing_id ∧
         (b.status = BookingStatus.pending ∨ b.status = BookingStatus.confirmed) ∧
         b.check_in_date < c.check_out_date ∧ c.check_in_date < b.check_out_date)) := by
  unfold BookingSerializer.validate
  rw [hfind]
  dsimp only
  refine ⟨?_, ?_, ?_, ?_, ?_, ?_⟩
  · intro h
    rw [if_pos h]
  · intro h1 h2
    rw [if_neg (not_le.mpr h1), if_pos h2]
  · intro h1 h2 h3
    rw [if_neg (not_le.mpr h1), if_neg (not_lt.mpr h2), if_pos hng,
      if_pos h3]
  · intro h1 h2 h3 h4
    rw [if_neg (not_le.mpr h1), if_neg (not_lt.mpr h2), if_pos hng,
      if_neg (not_lt.mpr h3), h4]
    rfl
  · intro h1 h2 h3 h4 h5
    rw [if_neg (not_le.mpr h1), if_neg (not_lt.mpr h2), if_pos hng,
      if_neg (not_lt.mpr h3), h4]
    have hany : bookings.any
        (overlapsCandidate c.listing_id c.check_in_date c.check_out_date) = true :=
      (any_overlapsCandidate_iff bookings c.listing_id c.check_in_date
        c.check_out_date).mpr h5
    simp [hany]
  · rw [if_pos hng]
    constructor
    · intro h
      by_cases h1 : c.check_out_date ≤ c.check_in_date
      · rw [if_pos h1] at h
        exact absurd h (by simp)
      rw [if_neg h1] at h
      by_cases h2 : c.check_in_date < today
      · rw [if_pos h2] at h
        exact absurd h (by simp)
      rw [if_neg h2] at h
      by_cases h3 : c.num_guests > l.max_guests
      · rw [if_pos h3] at h
        exact absurd h (by simp)
      rw [if_neg h3] at h
      by_cases h4 : l.is_available = true
      · rw [h4] at h
        simp only [Bool.not_true, Bool.false_eq_true, if_false] at h
        by_cases h5 : bookings.any
            (overlapsCandidate c.listing_id c.check_in_date c.check_out_date) = true
        · rw [if_pos h5] at h
          exact absurd h (by simp)
        · refine ⟨not_le.mp h1, not_lt.mp h2, not_lt.mp h3, h4, ?_⟩
          intro hex
          exact h5 ((any_overlapsCandidate_iff bookings c.listing_id
            c.check_in_date c.check_out_date).mpr hex)
      · rw [Bool.not_eq_true] at h4
        rw [h4] at h
        exact absurd h (by simp)
    · rintro ⟨h1, h2, h3, h4, h5⟩
      rw [if_neg (not_le.mpr h1), if_neg (not_lt.mpr h2),
        if_neg (not_lt.mpr h3), h4]
      have hany : bookings.any
          (overlapsCandidate c.listing_id c.check_in_date c.check_out_date) = false := by
        rw [Bool.eq_false_iff]
        intro hc
        exact h5 ((any_overlapsCandidate_iff bookings c.listing_id
          c.check_in_date c.check_out_date).mp hc)
      simp [hany]

/-- C1 witness: at a concrete candidate with check-out before check-in,
validation fails with the date-range error. -/
theorem booking_validate_order_witness :
    BookingSerializer.validate 1 [listing100] []
      { listing_id := 1, check_in_date := 4, check_out_date := 2,
        num_guests := 2, total_price := none } =
      Except.error ValidationError.DateRangeError :=
  (booking_validate_order_and_completeness 1 [listing100] []
    { listing_id := 1, check_in_date := 4, check_out_date := 2,
      num_guests := 2, total_price := none } listing100 rfl (by decide)).1
    (by decide)

/-- C2: the overlap filter treats ranges half-open, counting an existing
booking [a,b) against a candidate [c,d) exactly when a < d and c < b and
its status is pending or confirmed; concretely, a confirmed booking
Jan 1 - Jan 5 makes a candidate for Jan 3 - Jan 6 on the same listing
fail with the overlap error, while the same booking cancelled or
completed does not block the candidate. -/
theorem booking_overlap_semantics :
    (∀ (lid : ListingId) (ci co : Int) (b : Booking),
      overlapsCandidate lid ci co b = true ↔
        (b.listing = lid ∧
         (b.status = BookingStatus.pending ∨ b.status = BookingStatus.confirmed) ∧
         b.check_in_date < co ∧ ci < b.check_out_date)) ∧
    BookingSerializer.validate 1 [listing100] [bookingJan1Jan5] candJan3Jan6 =
      Except.error ValidationError.OverlapError ∧
    (∀ st : BookingStatus,
      st = BookingStatus.cancelled ∨ st = BookingStatus.completed →
      BookingSerializer.validate 1 [listing100]
          [{ bookingJan1Jan5 with status := st }] candJan3Jan6 =
        Except.ok candJan3Jan6) := by
  refine ⟨overlapsCandidate_iff, rfl, ?_⟩
  rintro st (rfl | rfl) <;> rfl

/-- C2 witness: the cancelled variant of booking A does not block the
candidate. -/
theorem booking_overlap_semantics_witness :
    BookingSerializer.validate 1 [listing100]
        [{ bookingJan1Jan5 with status := BookingStatus.cancelled }] candJan3Jan6 =
      Except.ok candJan3Jan6 :=
  booking_overlap_semantics.2.2 BookingStatus.cancelled (Or.inl rfl)

/-- C3: booking creation computes `total_price = price_per_night *
(check_out - check_in).days` when no explicit total price was supplied
(always, for `BookingCreateSerializer`), keeps an explicitly supplied
total price unchanged, and assigns the request user as the booking's
user; concretely, price 100 per night for Jan 1 - Jan 4 gives
total_price 300 and duration_days 3. -/
theorem booking_create_pricing_and_user (u : UserId) (l : Listing)
    (c : BookingCandidate) :
    (c.total_price = none →
      (BookingSerializer.create u l c).total_price =
        l.price_per_night * ((c.check_out_date - c.check_in_date : Int) : Rat)) ∧
    (∀ p : Rat, c.total_price = some p →
      (BookingSerializer.create u l c).total_price = p) ∧
    (BookingSerializer.create u l c).user = u ∧
    (BookingCreateSerializer.create u l c).total_price =
      l.price_per_night * ((c.check_out_date - c.check_in_date : Int) : Rat) ∧
    (BookingCreateSerializer.create u l c).user = u ∧
    (BookingSerializer.create 7 listing100 candJan1Jan4).total_price = 300 ∧
    (BookingSerializer.create 7 listing100 candJan1Jan4).duration_days = 3 := by
  refine ⟨?_, ?_, rfl, rfl, rfl, ?_, rfl⟩
  · intro h
    simp [BookingSerializer.create, h]
  · intro p h
    simp [BookingSerializer.create, h]
  · norm_num [BookingSerializer.create, candJan1Jan4, listing100]

/-- C3 witness: at the concrete pricing scenario the computed price
formula applies because no explicit total price is supplied. -/
theorem booking_create_pricing_witness :
    (BookingSerializer.create 7 listing100 candJan1Jan4).total_price =
      listing100.price_per_night *
        ((candJan1Jan4.check_out_date - candJan1Jan4.check_in_date : Int) : Rat) :=
  (booking_create_pricing_and_user 7 listing100 candJan1Jan4).1 rfl

theorem isCompletedBookingBy_iff (user : UserId) (lid : ListingId)
    (b : Booking) :
    isCompletedBookingBy user lid b = true ↔
      (b.user = user ∧ b.listing = lid ∧ b.status = BookingStatus.completed) := by
  simp [isCompletedBookingBy, and_assoc]

theorem isReviewBy_iff (user : UserId) (lid : ListingId) (r : Review) :
    isReviewBy user lid r = true ↔ (r.user = user ∧ r.listing = lid) := by
  simp [isReviewBy]

theorem Review.clean_none_iff (bookings : List Booking) (r : Review) :
    Review.clean bookings r = none ↔
      ∃ b ∈ bookings, b.user = r.user ∧ b.listing = r.listing ∧
        b.status = BookingStatus.completed := by
  unfold Review.clean
  by_cases hany : bookings.any (isCompletedBookingBy r.user r.listing) = true
  · rw [if_pos hany]
    simp only [true_iff]
    simpa [List.any_eq_true, isCompletedBookingBy_iff] using hany
  · rw [if_neg hany]
    simp only [List.any_eq_true, isCompletedBookingBy_iff] at hany
    constructor
    · intro hc
      exact Option.noConfusion hc
    · intro hex
      exact absurd hex hany

theorem Review.validate_unique_none_iff (reviews : List Review) (r : Review) :
    Review.validate_unique reviews r = none ↔
      ¬ ∃ r2 ∈ reviews, r2.user = r.user ∧ r2.listing = r.listing := by
  unfold Review.validate_unique
  by_cases hany : reviews.any (isReviewBy r.user r.listing) = true
  · rw [if_pos hany]
    simp only [List.any_eq_true, isReviewBy_iff] at hany
    constructor
    · intro hc
      exact Option.noConfusion hc
    · intro hc
      exact absurd hany hc
  · rw [if_neg hany]
    simp only [List.any_eq_true, isReviewBy_iff] at hany
    exact ⟨fun _ => hany, fun _ => rfl⟩

theorem Review.clean_fields_none_iff (r : Review) :
    Review.clean_fields r = none ↔ (1 ≤ r.rating ∧ r.rating ≤ 5) := by
  unfold Review.clean_fields
  split_ifs with h1 h2 <;> simp <;> omega

theorem review_full_clean_eq_none (s : DBState) (r : Review)
    (h : Review.full_clean s r = none) :
    Review.clean_fields r = none ∧ Review.clean s.bookings r = none ∧
      Review.validate_unique s.reviews r = none := by
  unfold Review.full_clean at h
  cases h1 : Review.clean_fields r with
  | some e =>
    rw [h1] at h
    exact Option.noConfusion h
  | none =>
    rw [h1] at h
    cases h2 : Review.clean s.bookings r with
    | some e =>
      rw [h2] at h
      exact Option.noConfusion h
    | none =>
      rw [h2] at h
      exact ⟨rfl, rfl, h⟩

theorem review_save_eq_ok (s : DBState) (r : Review) (s2 : DBState)
    (h : Review.save s r = Except.ok s2) :
    s2 = { s with reviews := r :: s.reviews } ∧
      Review.full_clean s r = none := by
  unfold Review.save at h
  cases hfc : Review.full_clean s r with
  | some e =>
    rw [hfc] at h
    exact Except.noConfusion h
  | none =>
    rw [hfc] at h
    exact ⟨(Except.ok.inj h).symm, rfl⟩

theorem booking_full_clean_eq_none (today : Int) (listings : List Listing)
    (b : Booking) (h : Booking.full_clean today listings b = none) :
    Booking.clean_fields b = none ∧ Booking.clean today listings b = none := by
  unfold Booking.full_clean at h
  cases h1 : Booking.clean_fields b with
  | some e =>
    rw [h1] at h
    exact Option.noConfusion h
  | none =>
    rw [h1] at h
    cases h2 : Booking.clean today listings b with
    | some e =>
      rw [h2] at h
      exact Option.noConfusion h
    | none => exact ⟨rfl, rfl⟩

theorem Booking.clean_fields_none (b : Booking)
    (h : Booking.clean_fields b = none) : 1 ≤ b.num_guests := by
  unfold Booking.clean_fields at h
  split_ifs at h with h1 h2
  all_goals omega

theorem Booking.clean_none_dates (today : Int) (listings : List Listing)
    (b : Booking) (h : Booking.clean today listings b = none) :
    b.check_in_date < b.check_out_date ∧ today ≤ b.check_in_date := by
  unfold Booking.clean at h
  split_ifs at h with h1 h2 h3
  all_goals omega

theorem Booking.clean_none_capacity (today : Int) (listings : List Listing)
    (b : Booking) (l : Listing) (h : Booking.clean today listings b = none)
    (hng : b.num_guests ≠ 0)
    (hfind : findListing listings b.listing = some l) :
    b.num_guests ≤ l.max_guests := by
  unfold Booking.clean at h
  split_ifs at h with h1 h2
  rw [hfind] at h
  dsimp only at h
  by_contra hc
  rw [if_pos (not_le.mp hc)] at h
  exact Option.noConfusion h

theorem booking_save_eq_ok (today : Int) (s : DBState) (b : Booking)
    (s2 : DBState) (h : Booking.save today s b = Except.ok s2) :
    s2 = { s with bookings := b :: s.bookings } ∧
      Booking.full_clean today s.listings b = none := by
  unfold Booking.save at h
  cases hfc : Booking.full_clean today s.listings b with
  | some e =>
    rw [hfc] at h
    exact Except.noConfusion h
  | none =>
    rw [hfc] at h
    exact ⟨(Except.ok.inj h).symm, rfl⟩

theorem any_isCompletedBookingBy_iff (bookings : List Booking)
    (user : UserId) (lid : ListingId) :
    bookings.any (isCompletedBookingBy user lid) = true ↔
      ∃ b ∈ bookings, b.user = user ∧ b.listing = lid ∧
        b.status = BookingStatus.completed := by
  simp only [List.any_eq_true, isCompletedBookingBy_iff]

theorem any_isReviewBy_iff (reviews : List Review) (user : UserId)
    (lid : ListingId) :
    reviews.any (isReviewBy user lid) = true ↔
      ∃ r ∈ reviews, r.user = user ∧ r.listing = lid := by
  simp only [List.any_eq_true, isReviewBy_iff]

theorem save_bookingCompleted_eq :
    Booking.save 1 seedState1 bookingCompleted = Except.ok seedState2 := by
  norm_num [Booking.save, Booking.full_clean, Booking.clean_fields,
    Booking.clean, Booking.validate_constraints, findListing, seedState1,
    seedState2, bookingCompleted, bookingJan1Jan5, listing100]

/-- C5: in every reachable persisted state, no two review rows share a
(user, listing) pair, and an attempt to add a review for a pair that
already has one fails in `Review.save` (and so stores nothing); this
covers every creation path, since serializers and the seeder all go
through the model save, which runs `full_clean` with the uniqueness
check. -/
theorem review_unique_invariant (s : DBState) (hs : Reachable s)
    (r : Review) :
    distinctPairs s.reviews ∧
    ((∃ r2 ∈ s.reviews, r2.user = r.user ∧ r2.listing = r.listing) →
      ∃ e, Review.save s r = Except.error e) := by
  constructor
  · clear r
    induction hs with
    | init => exact List.Pairwise.nil
    | addListing s0 l _ ih => exact ih
    | saveBooking today s0 s2 b _ hsave ih =>
      obtain ⟨rfl, -⟩ := booking_save_eq_ok today s0 b s2 hsave
      exact ih
    | updateBooking today s0 b b2 pre post _ hsplit hfc ih => exact ih
    | saveReview s0 s2 r0 _ hsave ih =>
      obtain ⟨rfl, hfc⟩ := review_save_eq_ok s0 r0 s2 hsave
      obtain ⟨-, -, hvu⟩ := review_full_clean_eq_none s0 r0 hfc
      have hnodup := (Review.validate_unique_none_iff s0.reviews r0).mp hvu
      refine List.Pairwise.cons ?_ ih
      intro r2 hmem hpair
      exact hnodup ⟨r2, hmem, hpair.1.symm, hpair.2.symm⟩
  · rintro ⟨r2, hmem, hu, hl⟩
    have hany : s.reviews.any (isReviewBy r.user r.listing) = true := by
      simp only [List.any_eq_true, isReviewBy_iff]
      exact ⟨r2, hmem, hu, hl⟩
    have hvu : Review.validate_unique s.reviews r =
        some ValidationError.DuplicateReviewError := by
      unfold Review.validate_unique
      rw [if_pos hany]
    have hfc : ∃ e, Review.full_clean s r = some e := by
      unfold Review.full_clean
      cases hcf : Review.clean_fields r with
      | some e => exact ⟨e, rfl⟩
      | none =>
        cases hcl : Review.clean s.bookings r with
        | some e => exact ⟨e, rfl⟩
        | none => exact ⟨ValidationError.DuplicateReviewError, hvu⟩
    obtain ⟨e, he⟩ := hfc
    refine ⟨e, ?_⟩
    unfold Review.save
    rw [he]

/-- C5 witness: a concrete reachable state with one review, on which a
second review for the same (user, listing) pair fails to save. -/
theorem review_unique_invariant_witness :
    distinctPairs seedState3.reviews ∧
    (∃ e, Review.save seedState3
        { listing := 1, user := 2, rating := 4, booking := none } =
      Except.error e) := by
  have hreach : Reachable seedState3 :=
    Reachable.saveReview seedState2 seedState3 reviewByUser2
      (Reachable.saveBooking 1 seedState1 seedState2 bookingCompleted
        (Reachable.addListing { listings := [], bookings := [], reviews := [] }
          listing100 Reachable.init) save_bookingCompleted_eq) rfl
  have h := review_unique_invariant seedState3 hreach
    { listing := 1, user := 2, rating := 4, booking := none }
  refine ⟨h.1, h.2 ⟨reviewByUser2, ?_, rfl, rfl⟩⟩
  simp [seedState3]

/-- C9: every booking persisted through the model save path - whichever
serializer or script created it - satisfies check_out > check_in,
check_in not before the day of the save, and num_guests within the
listing's capacity, because `save` unconditionally runs `full_clean`; a
violating booking is never written. -/
theorem booking_save_invariants (today : Int) (s : DBState) (b : Booking)
    (s2 : DBState) (h : Booking.save today s b = Except.ok s2) :
    b.check_in_date < b.check_out_date ∧
    today ≤ b.check_in_date ∧
    (∀ l, findListing s.listings b.listing = some l →
      b.num_guests ≤ l.max_guests) ∧
    s2.bookings = b :: s.bookings := by
  obtain ⟨rfl, hfc⟩ := booking_save_eq_ok today s b s2 h
  obtain ⟨hcf, hcl⟩ := booking_full_clean_eq_none today s.listings b hfc
  obtain ⟨h1, h2⟩ := Booking.clean_none_dates today s.listings b hcl
  have hng : b.num_guests ≠ 0 := by
    have := Booking.clean_fields_none b hcf
    omega
  exact ⟨h1, h2,
    fun l hl => Booking.clean_none_capacity today s.listings b l hcl hng hl,
    rfl⟩

/-- C9 witness: the concrete completed booking saves successfully on day
1 and satisfies all three conditions. -/
theorem booking_save_invariants_witness :
    bookingCompleted.check_in_date < bookingCompleted.check_out_date ∧
    (1 : Int) ≤ bookingCompleted.check_in_date ∧
    (∀ l, findListing seedState1.listings bookingCompleted.listing = some l →
      bookingCompleted.num_guests ≤ l.max_guests) ∧
    seedState2.bookings = bookingCompleted :: seedState1.bookings :=
  booking_save_invariants 1 seedState1 bookingCompleted seedState2
    save_bookingCompleted_eq

/-- C7 (code bug): `Booking.save` runs `full_clean` on every save, and
`Booking.clean` re-checks the past-date rule each time, so a
modification of an already persisted booking (for example a status
transition) saved after its check-in date has passed IS rejected:
re-validating the Jan 1 booking on day 10 fails with the past-date
error, contradicting the spec's at-creation scope and the seeder's own
past-dated bookings. -/
theorem booking_update_past_date_rejected :
    Booking.full_clean 10 seedState2.listings bookingCompleted =
      some ValidationError.PastDateError ∧
    Booking.save 10 seedState2 bookingCompleted =
      Except.error ValidationError.PastDateError := by
  constructor <;>
    norm_num [Booking.save, Booking.full_clean, Booking.clean_fields,
      Booking.clean, seedState2, bookingCompleted, bookingJan1Jan5,
      listing100]

/-- C4 counterexample: at rating 6 with no completed booking, the review
serializer reports the rating-range error, not the not-eligible error
that the claim's check order (eligibility first, rating last) predicts,
because DRF runs the field-level `validate_rating` during
`to_internal_value`, before the object-level `validate`. -/
theorem review_validate_order_counterexample :
    ReviewSerializer.run_validation 9 [] [] { listing_id := 1, rating := 6 } =
      Except.error ValidationError.RangeError ∧
    ReviewSerializer.run_validation 9 [] [] { listing_id := 1, rating := 6 } ≠
      Except.error ValidationError.NotEligibleError := by
  refine ⟨rfl, ?_⟩
  intro hc
  have h0 : ReviewSerializer.run_validation 9 [] []
      { listing_id := 1, rating := 6 } =
      Except.error ValidationError.RangeError := rfl
  exact ValidationError.noConfusion (Except.error.inj (h0.symm.trans hc))

/-- C4 amended: the review validation checks run in the order rating
range (field-level, first), completed-booking eligibility, duplicate
review, failing with the corresponding error at the first violated
check; validation succeeds exactly when all three conditions hold. -/
theorem review_validate_order_amended (user : UserId)
    (bookings : List Booking) (reviews : List Review) (c : ReviewCandidate) :
    ((c.rating < 1 ∨ 5 < c.rating) →
      ReviewSerializer.run_validation user bookings reviews c =
        Except.error ValidationError.RangeError) ∧
    (1 ≤ c.rating → c.rating ≤ 5 →
      ¬(∃ b ∈ bookings, b.user = user ∧ b.listing = c.listing_id ∧
          b.status = BookingStatus.completed) →
      ReviewSerializer.run_validation user bookings reviews c =
        Except.error ValidationError.NotEligibleError) ∧
    (1 ≤ c.rating → c.rating ≤ 5 →
      (∃ b ∈ bookings, b.user = user ∧ b.listing = c.listing_id ∧
        b.status = BookingStatus.completed) →
      (∃ r ∈ reviews, r.user = user ∧ r.listing = c.listing_id) →
      ReviewSerializer.run_validation user bookings reviews c =
        Except.error ValidationError.DuplicateReviewError) ∧
    (ReviewSerializer.run_validation user bookings reviews c = Except.ok c ↔
      (1 ≤ c.rating ∧ c.rating ≤ 5 ∧
       (∃ b ∈ bookings, b.user = user ∧ b.listing = c.listing_id ∧
         b.status = BookingStatus.completed) ∧
       ¬(∃ r ∈ reviews, r.user = user ∧ r.listing = c.listing_id))) := by
  refine ⟨?_, ?_, ?_, ?_⟩
  · intro hr
    unfold ReviewSerializer.run_validation ReviewSerializer.validate_rating
    rw [if_pos hr]
  · intro h1 h2 hne
    have hP : bookings.any (isCompletedBookingBy user c.listing_id) = false := by
      rw [Bool.eq_false_iff]
      intro hcontra
      exact hne ((any_isCompletedBookingBy_iff bookings user c.listing_id).mp
        hcontra)
    have hr : ¬(c.rating < 1 ∨ 5 < c.rating) := by omega
    unfold ReviewSerializer.run_validation ReviewSerializer.validate_rating
    rw [if_neg hr]
    dsimp only
    unfold ReviewSerializer.validate
    rw [hP]
    simp only [Bool.not_false]
    rw [if_pos trivial]
  · intro h1 h2 hex hdup
    have hP : bookings.any (isCompletedBookingBy user c.listing_id) = true :=
      (any_isCompletedBookingBy_iff bookings user c.listing_id).mpr hex
    have hQ : reviews.any (isReviewBy user c.listing_id) = true :=
      (any_isReviewBy_iff reviews user c.listing_id).mpr hdup
    have hr : ¬(c.rating < 1 ∨ 5 < c.rating) := by omega
    unfold ReviewSerializer.run_validation ReviewSerializer.validate_rating
    rw [if_neg hr]
    dsimp only
    unfold ReviewSerializer.validate
    rw [hP]
    simp only [Bool.not_true]
    rw [if_neg Bool.false_ne_true, if_pos hQ]
  · by_cases hr : c.rating < 1 ∨ 5 < c.rating
    · unfold ReviewSerializer.run_validation ReviewSerializer.validate_rating
      rw [if_pos hr]
      constructor
      · intro hc
        exact Except.noConfusion hc
      · rintro ⟨ha, hb, -, -⟩
        exact absurd hr (by omega)
    · have hrv : ReviewSerializer.run_validation user bookings reviews c =
          ReviewSerializer.validate user bookings reviews c := by
        unfold ReviewSerializer.run_validation ReviewSerializer.validate_rating
        rw [if_neg hr]
      rw [hrv]
      unfold ReviewSerializer.validate
      by_cases hP : bookings.any (isCompletedBookingBy user c.listing_id) = true
      · rw [hP]
        simp only [Bool.not_true]
        rw [if_neg Bool.false_ne_true]
        by_cases hQ : reviews.any (isReviewBy user c.listing_id) = true
        · rw [if_pos hQ]
          constructor
          · intro hc
            exact Except.noConfusion hc
          · rintro ⟨-, -, -, hnd⟩
            exact absurd ((any_isReviewBy_iff reviews user c.listing_id).mp hQ)
              hnd
        · rw [if_neg hQ]
          constructor
          · intro _
            refine ⟨by omega, by omega,
              (any_isCompletedBookingBy_iff bookings user c.listing_id).mp hP,
              ?_⟩
            intro hdup
            exact hQ ((any_isReviewBy_iff reviews user c.listing_id).mpr hdup)
          · intro _
            rfl
      · rw [Bool.eq_false_iff.mpr hP]
        simp only [Bool.not_false]
        rw [if_pos trivial]
        constructor
        · intro hc
          exact Except.noConfusion hc
        · rintro ⟨-, -, hex, -⟩
          exact absurd ((any_isCompletedBookingBy_iff bookings user
            c.listing_id).mpr hex) hP

/-- C4 amended witness: at a concrete in-range candidate with a
completed booking and no prior review, validation succeeds. -/
theorem review_validate_order_amended_witness :
    ReviewSerializer.run_validation 2 [bookingCompleted] []
        { listing_id := 1, rating := 5 } =
      Except.ok { listing_id := 1, rating := 5 } :=
  (review_validate_order_amended 2 [bookingCompleted] []
    { listing_id := 1, rating := 5 }).2.2.2.mpr
    ⟨by decide, by decide,
     ⟨bookingCompleted, by decide, rfl, rfl, rfl⟩,
     by rintro ⟨r, hr, -⟩; exact (List.not_mem_nil r) hr⟩

/-- C6: the serialized average rating is the one-decimal rounding of the
mean of the listing's review ratings, is 0 for a listing with no
reviews and 4.0 for ratings {5,3}, and the serialized total_reviews is
the count of its reviews. -/
theorem listing_average_rating_spec (reviews : List Review) :
    ListingSerializer.get_average_rating [] = 0 ∧
    (reviews ≠ [] →
      ListingSerializer.get_average_rating reviews =
        pythonRound1 ((reviews.map (fun r => (r.rating : Rat))).sum /
          (reviews.length : Rat))) ∧
    ListingSerializer.get_average_rating
      [{ listing := 1, user := 2, rating := 5, booking := none },
       { listing := 1, user := 3, rating := 3, booking := none }] = 4 ∧
    ListingSerializer.get_total_reviews reviews = reviews.length := by
  refine ⟨?_, ?_, ?_, rfl⟩
  · norm_num [ListingSerializer.get_average_rating,
      Listing.get_average_rating, pythonRound1, roundHalfEven, ratFloor]
  · intro hne
    unfold ListingSerializer.get_average_rating Listing.get_average_rating
    rw [if_neg (by simpa using hne)]
  · norm_num [ListingSerializer.get_average_rating,
      Listing.get_average_rating, pythonRound1, roundHalfEven, ratFloor,
      Int.fdiv]

/-- C6 witness: the nonempty-case formula applied at the {5,3} listing. -/
theorem listing_average_rating_witness :
    ListingSerializer.get_average_rating
        [{ listing := 1, user := 2, rating := 5, booking := none },
         { listing := 1, user := 3, rating := 3, booking := none }] =
      pythonRound1
        (([{ listing := 1, user := 2, rating := 5, booking := none },
           { listing := 1, user := 3, rating := 3, booking := none }].map
            (fun r : Review => (r.rating : Rat))).sum /
          (([{ listing := 1, user := 2, rating := 5, booking := none },
             { listing := 1, user := 3, rating := 3, booking := none }] :
              List Review).length : Rat)) :=
  (listing_average_rating_spec
    [{ listing := 1, user := 2, rating := 5, booking := none },
     { listing := 1, user := 3, rating := 3, booking := none }]).2.1
    (by simp)

theorem save_attempt_preserves_rule (s : DBState) (r : Review)
    (h : ReviewsRespectRule s) :
    ReviewsRespectRule
      (match Review.save s r with
       | Except.ok s2 => s2
       | Except.error _ => s) := by
  cases hsave : Review.save s r with
  | error e => exact h
  | ok s2 =>
    obtain ⟨rfl, hfc⟩ := review_save_eq_ok s r s2 hsave
    obtain ⟨hcf, hcl, hvu⟩ := review_full_clean_eq_none s r hfc
    have hcomp := (Review.clean_none_iff s.bookings r).mp hcl
    have hnodup := (Review.validate_unique_none_iff s.reviews r).mp hvu
    constructor
    · intro r0 hr0
      rcases List.mem_cons.mp hr0 with rfl | hr0
      · exact hcomp
      · exact h.1 r0 hr0
    · refine List.Pairwise.cons ?_ h.2
      intro r2 hmem hpair
      exact hnodup ⟨r2, hmem, hpair.1.symm, hpair.2.symm⟩

/-- C8: both review-creation phases of the seeder - the phase linking
reviews to completed bookings and the phase creating reviews not linked
to a booking - preserve the completed-booking-plus-no-duplicate rule
over the persisted reviews, because each attempted creation goes through
`Review.save`, whose `full_clean` enforces both conditions, and a failed
creation is swallowed without persisting anything. -/
theorem seeder_reviews_respect_rule (s : DBState) (b : Booking)
    (l : Listing) (user : UserId) (r1 r2 : Nat)
    (h : ReviewsRespectRule s) :
    ReviewsRespectRule (seedReviewFromBooking s b r1) ∧
    ReviewsRespectRule (seedReviewDirect s l user r2) := by
  constructor
  · unfold seedReviewFromBooking
    split_ifs with hskip
    · exact h
    · exact save_attempt_preserves_rule s _ h
  · unfold seedReviewDirect
    split_ifs with hskip
    · exact h
    · exact save_attempt_preserves_rule s _ h

/-- C8 witness: both phases applied to the concrete two-row state keep
the rule. -/
theorem seeder_reviews_respect_rule_witness :
    ReviewsRespectRule (seedReviewFromBooking seedState2 bookingCompleted 5) ∧
    ReviewsRespectRule (seedReviewDirect seedState2 listing100 2 4) :=
  seeder_reviews_respect_rule seedState2 bookingCompleted listing100 2 5 4
    ⟨fun r hr => absurd hr (List.not_mem_nil r), List.Pairwise.nil⟩

theorem redrawUser_ne_host (host : UserId) (draws : List UserId)
    (u : UserId) (h : redrawUser host draws = some u) : u ≠ host := by
  induction draws with
  | nil => exact Option.noConfusion h
  | cons d rest ih =>
    unfold redrawUser at h
    split_ifs at h with hd
    · exact ih h
    · obtain rfl := Option.some.inj h
      simpa using hd

/-- C10: a booking built by either seeder loop never has the listing's
host as its user, because the loop re-draws `random.choice(users)` until
the draw differs from the host. -/
theorem seeder_booking_user_not_host (l : Listing) (draws : List UserId)
    (start_date : Int) (duration guests : Nat) (st : BookingStatus)
    (b : Booking)
    (h : seedBooking l draws start_date duration guests st = some b) :
    b.user ≠ l.host := by
  unfold seedBooking at h
  cases hrd : redrawUser l.host draws with
  | none =>
    rw [hrd] at h
    exact Option.noConfusion h
  | some u =>
    rw [hrd] at h
    dsimp only at h
    obtain rfl := Option.some.inj h
    exact redrawUser_ne_host l.host draws u hrd

/-- C10 witness: with draws [0, 2] against host 0, the built booking's
user is 2, not the host. -/
theorem seeder_booking_user_not_host_witness :
    ({ listing := 1, user := 2, check_in_date := 5, check_out_date := 5 + (3 : Nat),
       num_guests := 2, total_price := listing100.price_per_night * ((3 : Nat) : Rat),
       status := BookingStatus.pending } : Booking).user ≠ listing100.host :=
  seeder_booking_user_not_host listing100 [0, 2] 5 3 2 BookingStatus.pending
    { listing := 1, user := 2, check_in_date := 5, check_out_date := 5 + (3 : Nat),
      num_guests := 2, total_price := listing100.price_per_night * ((3 : Nat) : Rat),
      status := BookingStatus.pending } rfl

end AlxTravel
